import Mathlib

/-!
Shallow embedding of the core of the `andropay-tpm-reports` repository:
the domain model (`src/models.py`, `src/models_v2.py`), the item parser and
metrics engine (`src/processor.py`, `src/processor_v2.py`), and the snapshot
store and differencer (`src/snapshot.py`).  Machine integers are modelled by
`Nat`/`Int`, Python floats by `Rat`, Python dicts by association lists with
the source's insert-or-append / insert-or-replace access patterns, and Python
exceptions by `Except`.
-/

namespace TpmReports

/-- The `Priority` enumeration of `src/models.py` (`FIRE` has value `"P🔥"`). -/
inductive Priority where
  | FIRE
  | P0
  | P1
  | P2
deriving DecidableEq, Repr

/-- The `.value` string of a `Priority` member. -/
def Priority.val : Priority → String
  | .FIRE => "P🔥"
  | .P0 => "P0"
  | .P1 => "P1"
  | .P2 => "P2"

/-- The `Status` enumeration of `src/models.py`. -/
inductive Status where
  | BACKLOG
  | TODO
  | PENDING
  | IN_PROGRESS
  | IN_REVIEW
  | DONE
deriving DecidableEq, Repr

/-- The `.value` string of a `Status` member. -/
def Status.val : Status → String
  | .BACKLOG => "Backlog"
  | .TODO => "Todo"
  | .PENDING => "Pending"
  | .IN_PROGRESS => "In Progress"
  | .IN_REVIEW => "In Review"
  | .DONE => "Done"

/-- `Priority(s)` for a string `s`: the member whose value equals `s`, if any. -/
def priorityOfString (s : String) : Option Priority :=
  if s = "P🔥" then some .FIRE
  else if s = "P0" then some .P0
  else if s = "P1" then some .P1
  else if s = "P2" then some .P2
  else none

/-- `Status(s)` for a string `s`: the member whose value equals `s`, if any. -/
def statusOfString (s : String) : Option Status :=
  if s = "Backlog" then some .BACKLOG
  else if s = "Todo" then some .TODO
  else if s = "Pending" then some .PENDING
  else if s = "In Progress" then some .IN_PROGRESS
  else if s = "In Review" then some .IN_REVIEW
  else if s = "Done" then some .DONE
  else none

/-- The `ProjectItem` dataclass of `src/models.py`. -/
structure ProjectItem where
  id : String
  title : String
  status : Status
  priority : Priority
  assignees : List String
  estimate_hours : Option Rat
  labels : List String
  url : String
  repository : String
  issue_number : Option Int
deriving DecidableEq, Repr

/-- `ProjectItem.is_planned`: the item is planned when its priority is not `FIRE`. -/
def ProjectItem.is_planned (item : ProjectItem) : Bool :=
  item.priority != Priority.FIRE

/-- `ProjectItem.is_active`: the item is active when its status is not `DONE`. -/
def ProjectItem.is_active (item : ProjectItem) : Bool :=
  item.status != Status.DONE

/-- A dynamically-typed raw field value, as JSON decoding can produce it:
`null`, a string, or a non-string scalar (modelled by an integer). -/
inductive RawVal where
  | vnull
  | vstr (s : String)
  | vint (n : Int)
deriving DecidableEq, Repr

/-- Python truthiness of a `RawVal` (`None`, `""` and `0` are falsy). -/
def RawVal.truthy : RawVal → Bool
  | .vnull => false
  | .vstr s => s != ""
  | .vint n => n != 0

/-- The nested `content` object of a raw record (`url`, `repository`, `number`;
`none` models a missing key). -/
structure RawContent where
  url : Option String
  repository : Option String
  number : Option Int
deriving DecidableEq, Repr

/-- A dynamically-typed `content` value as stored under the `content` key:
null, a non-dict scalar (modelled by an integer), or a nested mapping.
`raw_item.get('content', {})` substitutes the empty mapping only for a
missing key; a stored null or scalar passes through and makes the later
`content.get(...)` calls raise `AttributeError`. -/
inductive RawContentVal where
  | cnull
  | cint (n : Int)
  | cdict (c : RawContent)
deriving DecidableEq, Repr

/-- A raw record as handed to `parse_item`: each field is `none` when the key
is missing.  `status`, `priority` and `content` are dynamically typed, since
the parser's behaviour on `null` and non-string (or non-dict) values is part
of the specification. -/
structure RawItem where
  id : Option String
  title : Option String
  status : Option RawVal
  priority : Option RawVal
  assignees : Option (List String)
  estimate : Option Rat
  labels : Option (List String)
  content : Option RawContentVal
deriving DecidableEq, Repr

/-- A Python exception escaping the embedded code. -/
inductive PyError where
  | attributeError
  | valueError
deriving DecidableEq, Repr

/-- `Status(status_value)` on a raw value: enum lookup succeeds only on a
string equal to a member's value (lookup of any other value raises
`ValueError`, which `parse_item` catches). -/
def statusOfValue : RawVal → Option Status
  | .vstr s => statusOfString s
  | _ => none

/-- `Priority(priority_value)` on a raw value. -/
def priorityOfValue : RawVal → Option Priority
  | .vstr s => priorityOfString s
  | _ => none

/-- The status block of `parse_item` (`src/processor.py` lines 21-25):
`Status(status_value)` with fallback to `BACKLOG` on `ValueError`. -/
def parseStatusField (status_value : RawVal) : Status :=
  match statusOfValue status_value with
  | some s => s
  | none => Status.BACKLOG

/-- The Python `str.startswith(pre)` test, modelled over character lists so
that it evaluates by kernel reduction. -/
def strStartsWith (s pre : String) : Bool :=
  pre.data.isPrefixOf s.data

/-- The priority block of `parse_item` (`src/processor.py` lines 28-38):
`Priority(priority_value)`; on `ValueError`, the recovery heuristic
`if priority_value and priority_value.startswith('P') and len(priority_value) > 2`.
Evaluating `.startswith` on a truthy non-string raises `AttributeError`,
which nothing catches. -/
def parsePriorityField (priority_value : RawVal) : Except PyError Priority :=
  match priorityOfValue priority_value with
  | some p => .ok p
  | none =>
    if priority_value.truthy then
      match priority_value with
      | .vstr s => .ok (if strStartsWith s "P" && decide (2 < s.length) then Priority.FIRE else Priority.P2)
      | _ => .error .attributeError
    else .ok Priority.P2

/-- `parse_item` of `src/processor.py`: raw record to `ProjectItem`, with the
status/priority fallbacks and per-field defaults.  A bad priority raises
before the `ProjectItem(...)` call; after it, `content.get('url', '')` raises
`AttributeError` when the stored `content` value is not a mapping. -/
def parse_item (raw : RawItem) : Except PyError ProjectItem :=
  let content := raw.content.getD (.cdict { url := none, repository := none, number := none })
  let status := parseStatusField (raw.status.getD (.vstr "Backlog"))
  match parsePriorityField (raw.priority.getD (.vstr "P2")) with
  | .error e => .error e
  | .ok priority =>
    match content with
    | .cdict content =>
      .ok {
        id := raw.id.getD ""
        title := raw.title.getD ""
        status := status
        priority := priority
        assignees := raw.assignees.getD []
        estimate_hours := raw.estimate
        labels := raw.labels.getD []
        url := content.url.getD ""
        repository := content.repository.getD ""
        issue_number := content.number }
    | _ => .error .attributeError

/-- Elementwise application of a fallible function to a list, as a Python
list comprehension behaves: the first exception propagates. -/
def mapExcept {ε α β : Type} (f : α → Except ε β) : List α → Except ε (List β)
  | [] => .ok []
  | x :: t =>
    match f x with
    | .error e => .error e
    | .ok y =>
      match mapExcept f t with
      | .error e => .error e
      | .ok ys => .ok (y :: ys)

/-- `parse_items` of `src/processor.py`: elementwise parse, an exception from
any element propagates. -/
def parse_items (raw_items : List RawItem) : Except PyError (List ProjectItem) :=
  mapExcept parse_item raw_items

/-- The Python-dict pattern `if k not in d: d[k] = []` followed by
`d[k].append(x)`: append `x` to the (unique) entry for `k`, creating the entry
at the end when absent.  Dicts built this way have pairwise-distinct keys, so
replacing the first matching entry is exact. -/
def dictInsertAppend {α : Type} : List (String × List α) → String → α → List (String × List α)
  | [], k, x => [(k, [x])]
  | kv :: rest, k, x =>
    if kv.1 = k then (k, kv.2 ++ [x]) :: rest else kv :: dictInsertAppend rest k x

/-- The Python-dict assignment `d[k] = v`: replace the (unique) entry for `k`,
creating it at the end when absent. -/
def dictInsertReplace {α : Type} : List (String × α) → String → α → List (String × α)
  | [], k, v => [(k, v)]
  | kv :: rest, k, v =>
    if kv.1 = k then (k, v) :: rest else kv :: dictInsertReplace rest k v

/-- Python-dict lookup `d[k]` / `d.get(k)` on the association-list model. -/
def dictGet {α : Type} : List (String × α) → String → Option α
  | [], _ => none
  | kv :: rest, k => if kv.1 = k then some kv.2 else dictGet rest k

/-- The keys of a dict, in insertion order. -/
def dictKeys {α : Type} (d : List (String × α)) : List String :=
  d.map Prod.fst

/-- `group_by_status` of `src/processor.py`. -/
def group_by_status (items : List ProjectItem) : List (String × List ProjectItem) :=
  items.foldl (fun grouped item => dictInsertAppend grouped item.status.val item) []

/-- `group_by_priority` of `src/processor.py`. -/
def group_by_priority (items : List ProjectItem) : List (String × List ProjectItem) :=
  items.foldl (fun grouped item => dictInsertAppend grouped item.priority.val item) []

/-- `group_by_assignee` of `src/processor.py`: items with several assignees
appear in several groups; items with none go to the `"Unassigned"` group. -/
def group_by_assignee (items : List ProjectItem) : List (String × List ProjectItem) :=
  items.foldl
    (fun grouped item =>
      if item.assignees = [] then dictInsertAppend grouped "Unassigned" item
      else item.assignees.foldl (fun grouped a => dictInsertAppend grouped a item) grouped)
    []

/-- `round(x, 1)` on a Python float, modelled over `Rat`. -/
def round1 (x : Rat) : Rat :=
  (round (x * 10) : Int) / 10

/-- The `ProjectMetrics` dataclass (`src/models.py` and, field-for-field
identical, `src/models_v2.py`), parameterized by the item type its three
groupings hold. -/
structure ProjectMetrics (α : Type) where
  total_items : Nat
  total_estimate_hours : Rat
  completion_percentage : Rat
  planned_count : Nat
  unplanned_count : Nat
  unplanned_percentage : Rat
  high_priority_not_started : Nat
  items_by_status : List (String × List α)
  items_by_priority : List (String × List α)
  items_by_assignee : List (String × List α)
  active_items : Nat
  active_completion_percentage : Rat
  pending_items : Nat
  in_progress_items : Nat
  active_unplanned_percentage : Rat
  todo_items : Nat
  done_active_items : Nat
  unplanned_done_percentage : Rat
  unplanned_done_count : Nat
  active_unplanned_count : Nat
deriving DecidableEq, Repr

/-- `calculate_todo_count` of `src/processor.py`. -/
def calculate_todo_count (items : List ProjectItem) : Nat :=
  items.countP (fun item => item.status = Status.TODO)

/-- `calculate_done_active_count` of `src/processor.py`. -/
def calculate_done_active_count (items : List ProjectItem) : Nat :=
  items.countP (fun item => item.status = Status.DONE)

/-- `calculate_unplanned_done_stats` of `src/processor.py`. -/
def calculate_unplanned_done_stats (items : List ProjectItem) : Rat × Nat :=
  let done_items := items.filter (fun item => item.status = Status.DONE)
  let total_done := done_items.length
  if total_done = 0 then (0, 0)
  else
    let unplanned_done := done_items.countP (fun item => item.priority = Priority.FIRE)
    (round1 ((unplanned_done : Rat) / (total_done : Rat) * 100), unplanned_done)

/-- `calculate_metrics` of `src/processor.py`. -/
def calculate_metrics (items : List ProjectItem) : ProjectMetrics ProjectItem :=
  if items.isEmpty then
    { total_items := 0
      total_estimate_hours := 0
      completion_percentage := 0
      planned_count := 0
      unplanned_count := 0
      unplanned_percentage := 0
      high_priority_not_started := 0
      items_by_status := []
      items_by_priority := []
      items_by_assignee := []
      active_items := 0
      active_completion_percentage := 0
      pending_items := 0
      in_progress_items := 0
      active_unplanned_percentage := 0
      active_unplanned_count := 0
      todo_items := 0
      done_active_items := 0
      unplanned_done_percentage := 0
      unplanned_done_count := 0 }
  else
    let total_items := items.length
    let total_estimate_hours := (items.filterMap (fun item => item.estimate_hours)).sum
    let done_items := items.countP (fun item => item.status = Status.DONE)
    let completion_percentage :=
      if 0 < total_items then round1 ((done_items : Rat) / (total_items : Rat) * 100) else 0
    let unplanned_count := items.countP (fun item => !item.is_planned)
    let planned_count := total_items - unplanned_count
    let unplanned_percentage :=
      if 0 < total_items then round1 ((unplanned_count : Rat) / (total_items : Rat) * 100) else 0
    let high_priority_not_started := items.countP (fun item =>
      decide (item.priority = Priority.FIRE ∨ item.priority = Priority.P0) &&
      decide (item.status = Status.BACKLOG ∨ item.status = Status.TODO))
    let items_by_status := group_by_status items
    let items_by_priority := group_by_priority items
    let items_by_assignee := group_by_assignee items
    let active_items_list := items.filter (fun item => item.status ≠ Status.BACKLOG)
    let active_items := active_items_list.length
    let active_done := active_items_list.countP (fun item => item.status = Status.DONE)
    let active_completion_percentage :=
      if 0 < active_items then round1 ((active_done : Rat) / (active_items : Rat) * 100) else 0
    let pending_items := items.countP (fun item => item.status = Status.PENDING)
    let in_progress_items := items.countP (fun item => item.status = Status.IN_PROGRESS)
    let active_unplanned_count := active_items_list.countP (fun item => !item.is_planned)
    let active_unplanned_percentage :=
      if 0 < active_items then round1 ((active_unplanned_count : Rat) / (active_items : Rat) * 100) else 0
    let todo_items := calculate_todo_count items
    let done_active_items := calculate_done_active_count items
    let stats := calculate_unplanned_done_stats items
    { total_items := total_items
      total_estimate_hours := total_estimate_hours
      completion_percentage := completion_percentage
      planned_count := planned_count
      unplanned_count := unplanned_count
      unplanned_percentage := unplanned_percentage
      high_priority_not_started := high_priority_not_started
      items_by_status := items_by_status
      items_by_priority := items_by_priority
      items_by_assignee := items_by_assignee
      active_items := active_items
      active_completion_percentage := active_completion_percentage
      pending_items := pending_items
      in_progress_items := in_progress_items
      active_unplanned_percentage := active_unplanned_percentage
      active_unplanned_count := active_unplanned_count
      todo_items := todo_items
      done_active_items := done_active_items
      unplanned_done_percentage := stats.1
      unplanned_done_count := stats.2 }

/-- `get_completion_color` of `src/processor.py`. -/
def get_completion_color (percentage : Rat) : String :=
  if 70 < percentage then "green"
  else if percentage < 30 then "red"
  else "yellow"

/-- `get_unplanned_color` of `src/processor.py`. -/
def get_unplanned_color (percentage : Rat) : String :=
  if percentage < 10 then "green"
  else if 20 < percentage then "red"
  else "yellow"

/-- `get_workload_color` of `src/processor.py`. -/
def get_workload_color (item_count : Int) : String :=
  if 10 < item_count then "red"
  else if 6 ≤ item_count then "yellow"
  else "green"

/-- `get_high_priority_color` of `src/processor.py`. -/
def get_high_priority_color (count : Int) : String :=
  if 5 < count then "red"
  else if 0 < count then "yellow"
  else "green"

/-- The serialized form of an item inside a snapshot file
(`_serialize_item` output, `src/snapshot.py`): status and priority are stored
as their enum value strings. -/
structure SnapItemJson where
  id : String
  title : String
  status : String
  priority : String
  assignees : List String
  estimate_hours : Option Rat
  labels : List String
  url : String
  repository : String
  issue_number : Option Int
deriving DecidableEq, Repr

/-- `_serialize_item` of `src/snapshot.py`. -/
def serialize_item (item : ProjectItem) : SnapItemJson :=
  { id := item.id
    title := item.title
    status := item.status.val
    priority := item.priority.val
    assignees := item.assignees
    estimate_hours := item.estimate_hours
    labels := item.labels
    url := item.url
    repository := item.repository
    issue_number := item.issue_number }

/-- `_deserialize_item` of `src/snapshot.py`: `Status(...)` and then
`Priority(...)` raise `ValueError` when the stored string is not a legal enum
value; no recovery heuristic applies. -/
def deserialize_item (data : SnapItemJson) : Except PyError ProjectItem :=
  match statusOfString data.status with
  | none => .error .valueError
  | some status =>
    match priorityOfString data.priority with
    | none => .error .valueError
    | some priority =>
      .ok {
        id := data.id
        title := data.title
        status := status
        priority := priority
        assignees := data.assignees
        estimate_hours := data.estimate_hours
        labels := data.labels
        url := data.url
        repository := data.repository
        issue_number := data.issue_number }

/-- The JSON body of a snapshot file: `{"timestamp": ..., "items": [...]}`. -/
structure SnapshotData where
  timestamp : String
  items : List SnapItemJson
deriving DecidableEq, Repr

/-- One file in the snapshot directory. -/
structure SnapshotFile where
  name : String
  data : SnapshotData
deriving DecidableEq, Repr

/-- A snapshot directory: `none` models a directory that does not exist,
`some files` its listing. -/
abbrev SnapshotDir := Option (List SnapshotFile)

/-- `datetime.now()` as the two formatted strings the store derives from it:
`compact` models `strftime("%Y%m%d-%H%M%S")` and `iso` models `isoformat()`
(the formatting itself is an out-of-scope library call). -/
structure DateTimeStamp where
  compact : String
  iso : String
deriving DecidableEq, Repr

/-- `open(filepath, 'w')` into a directory listing: truncate an existing file
of the same name, otherwise create a new one at the end. -/
def writeFile : List SnapshotFile → String → SnapshotData → List SnapshotFile
  | [], name, data => [{ name := name, data := data }]
  | f :: rest, name, data =>
    if f.name = name then { name := name, data := data } :: rest
    else f :: writeFile rest name data

/-- `save_snapshot` of `src/snapshot.py`: create the directory if absent,
write `{timestamp, items}` to `snapshot-<compact stamp>.json`, return the new
directory state and the filename. -/
def save_snapshot (items : List ProjectItem) (now : DateTimeStamp) (dir : SnapshotDir) :
    SnapshotDir × String :=
  let files := dir.getD []
  let filename := "snapshot-" ++ now.compact ++ ".json"
  let snapshot_data : SnapshotData :=
    { timestamp := now.iso ++ "Z", items := items.map serialize_item }
  (some (writeFile files filename snapshot_data), filename)

/-- The glob pattern `snapshot-*.json` on a filename (a single `*` matches any
run of characters, so the pattern holds exactly when the name carries the
prefix and the suffix in disjoint positions). -/
def matchesSnapshotGlob (name : String) : Bool :=
  "snapshot-".data.isPrefixOf name.data &&
  ".json".data.isSuffixOf name.data &&
  decide (14 ≤ name.data.length)

/-- The `max(files, key=lambda p: p.name)` step: keep the first file with the
lexicographically greatest name. -/
def maxByName (best g : SnapshotFile) : SnapshotFile :=
  if best.name < g.name then g else best

/-- `load_latest_snapshot` of `src/snapshot.py`: `none` result when the
directory is missing or holds no `snapshot-*.json` file; otherwise the file
with the greatest name is deserialized (a `ValueError` from any stored item
propagates). -/
def load_latest_snapshot (dir : SnapshotDir) : Except PyError (Option (List ProjectItem)) :=
  match dir with
  | none => .ok none
  | some files =>
    match files.filter (fun f => matchesSnapshotGlob f.name) with
    | [] => .ok none
    | f :: rest =>
      let latest := rest.foldl maxByName f
      (mapExcept deserialize_item latest.data.items).map some

/-- One entry of the `status_changes` list of `compare_snapshots`. -/
structure StatusChange where
  id : String
  title : String
  from_status : String
  to_status : String
deriving DecidableEq, Repr

/-- The dictionary returned by `compare_snapshots`. -/
structure CompareResult where
  items_completed : Nat
  items_added : Nat
  status_changes : List StatusChange
deriving DecidableEq, Repr

/-- The dict comprehension `{item.id: item for item in items}`: later items
overwrite earlier ones with the same id. -/
def buildById (items : List ProjectItem) : List (String × ProjectItem) :=
  items.foldl (fun d item => dictInsertReplace d item.id item) []

/-- `compare_snapshots` of `src/snapshot.py`. -/
def compare_snapshots (current : List ProjectItem) (previous : Option (List ProjectItem)) :
    CompareResult :=
  match previous with
  | none => { items_completed := 0, items_added := 0, status_changes := [] }
  | some previous =>
    let previous_by_id := buildById previous
    let current_by_id := buildById current
    let items_completed := current.countP (fun item =>
      match dictGet previous_by_id item.id with
      | some prev_item => decide (prev_item.status ≠ Status.DONE) && decide (item.status = Status.DONE)
      | none => false)
    let items_added := (dictKeys current_by_id).countP (fun item_id =>
      (dictGet previous_by_id item_id).isNone)
    let status_changes := current.filterMap (fun item =>
      match dictGet previous_by_id item.id with
      | some prev_item =>
        if prev_item.status ≠ item.status then
          some { id := item.id, title := item.title,
                 from_status := prev_item.status.val, to_status := item.status.val }
        else none
      | none => none)
    { items_completed := items_completed
      items_added := items_added
      status_changes := status_changes }

/-- The `ProjectItemV2` dataclass of `src/models_v2.py`: the v1 fields plus
five optional timestamp strings. -/
structure ProjectItemV2 extends ProjectItem where
  project_created_at : Option String
  project_updated_at : Option String
  issue_created_at : Option String
  issue_updated_at : Option String
  issue_closed_at : Option String
deriving DecidableEq, Repr

/-- `ProjectItemV2.is_planned` of `src/models_v2.py`. -/
def ProjectItemV2.is_planned (item : ProjectItemV2) : Bool :=
  item.priority != Priority.FIRE

/-- A raw record as handed to `parse_item_v2`: the v1 fields plus the
timestamp keys (`none` models a missing or null key, which the parser stores
identically). -/
structure RawItemV2 extends RawItem where
  project_created_at : Option String
  project_updated_at : Option String
  issue_created_at : Option String
  issue_updated_at : Option String
  issue_closed_at : Option String
deriving DecidableEq, Repr

/-- The status block of `parse_item_v2` (`src/processor_v2.py` lines 20-24),
textually identical to the v1 block. -/
def parseStatusFieldV2 (status_value : RawVal) : Status :=
  match statusOfValue status_value with
  | some s => s
  | none => Status.BACKLOG

/-- The priority block of `parse_item_v2` (`src/processor_v2.py` lines
26-33), textually identical to the v1 block. -/
def parsePriorityFieldV2 (priority_value : RawVal) : Except PyError Priority :=
  match priorityOfValue priority_value with
  | some p => .ok p
  | none =>
    if priority_value.truthy then
      match priority_value with
      | .vstr s => .ok (if strStartsWith s "P" && decide (2 < s.length) then Priority.FIRE else Priority.P2)
      | _ => .error .attributeError
    else .ok Priority.P2

/-- `parse_item_v2` of `src/processor_v2.py`; the `content` handling mirrors
the v1 parser exactly (`processor_v2.py` lines 18, 43-45). -/
def parse_item_v2 (raw : RawItemV2) : Except PyError ProjectItemV2 :=
  let content := raw.content.getD (.cdict { url := none, repository := none, number := none })
  let status := parseStatusFieldV2 (raw.status.getD (.vstr "Backlog"))
  match parsePriorityFieldV2 (raw.priority.getD (.vstr "P2")) with
  | .error e => .error e
  | .ok priority =>
    match content with
    | .cdict content =>
      .ok {
        id := raw.id.getD ""
        title := raw.title.getD ""
        status := status
        priority := priority
        assignees := raw.assignees.getD []
        estimate_hours := raw.estimate
        labels := raw.labels.getD []
        url := content.url.getD ""
        repository := content.repository.getD ""
        issue_number := content.number
        project_created_at := raw.project_created_at
        project_updated_at := raw.project_updated_at
        issue_created_at := raw.issue_created_at
        issue_updated_at := raw.issue_updated_at
        issue_closed_at := raw.issue_closed_at }
    | _ => .error .attributeError

/-- `parse_items_v2` of `src/processor_v2.py`. -/
def parse_items_v2 (raw_items : List RawItemV2) : Except PyError (List ProjectItemV2) :=
  mapExcept parse_item_v2 raw_items

/-- The fused grouping loop of `calculate_metrics_v2` (`src/processor_v2.py`
lines 141-164): one pass filling the status, priority and assignee dicts. -/
def metricsGroupsV2 (items : List ProjectItemV2) :
    List (String × List ProjectItemV2) × List (String × List ProjectItemV2) ×
      List (String × List ProjectItemV2) :=
  items.foldl
    (fun acc item =>
      ( dictInsertAppend acc.1 item.status.val item,
        dictInsertAppend acc.2.1 item.priority.val item,
        if item.assignees = [] then dictInsertAppend acc.2.2 "Unassigned" item
        else item.assignees.foldl (fun grouped a => dictInsertAppend grouped a item) acc.2.2 ))
    ([], [], [])

/-- `calculate_metrics_v2` of `src/processor_v2.py`. -/
def calculate_metrics_v2 (items : List ProjectItemV2) : ProjectMetrics ProjectItemV2 :=
  if items.isEmpty then
    { total_items := 0
      total_estimate_hours := 0
      completion_percentage := 0
      planned_count := 0
      unplanned_count := 0
      unplanned_percentage := 0
      high_priority_not_started := 0
      items_by_status := []
      items_by_priority := []
      items_by_assignee := []
      active_items := 0
      active_completion_percentage := 0
      pending_items := 0
      in_progress_items := 0
      active_unplanned_percentage := 0
      active_unplanned_count := 0
      todo_items := 0
      done_active_items := 0
      unplanned_done_percentage := 0
      unplanned_done_count := 0 }
  else
    let total_items := items.length
    let total_estimate_hours := (items.filterMap (fun item => item.estimate_hours)).sum
    let done_items := items.countP (fun item => item.status = Status.DONE)
    let completion_percentage :=
      if 0 < total_items then round1 ((done_items : Rat) / (total_items : Rat) * 100) else 0
    let unplanned_count := items.countP (fun item => !item.is_planned)
    let planned_count := total_items - unplanned_count
    let unplanned_percentage :=
      if 0 < total_items then round1 ((unplanned_count : Rat) / (total_items : Rat) * 100) else 0
    let high_priority_not_started := items.countP (fun item =>
      decide (item.priority = Priority.FIRE ∨ item.priority = Priority.P0) &&
      decide (item.status = Status.BACKLOG ∨ item.status = Status.TODO))
    let groups := metricsGroupsV2 items
    let active_items_list := items.filter (fun item => item.status ≠ Status.BACKLOG)
    let active_items := active_items_list.length
    let active_done := active_items_list.countP (fun item => item.status = Status.DONE)
    let active_completion_percentage :=
      if 0 < active_items then round1 ((active_done : Rat) / (active_items : Rat) * 100) else 0
    let pending_items := items.countP (fun item => item.status = Status.PENDING)
    let in_progress_items := items.countP (fun item => item.status = Status.IN_PROGRESS)
    let active_unplanned_count := active_items_list.countP (fun item => !item.is_planned)
    let active_unplanned_percentage :=
      if 0 < active_items then round1 ((active_unplanned_count : Rat) / (active_items : Rat) * 100) else 0
    let todo_items := items.countP (fun item => item.status = Status.TODO)
    let done_active_items := items.countP (fun item => item.status = Status.DONE)
    let done_items_list := items.filter (fun item => item.status = Status.DONE)
    let total_done := done_items_list.length
    let unplanned_done_count := done_items_list.countP (fun item => item.priority = Priority.FIRE)
    let unplanned_done_percentage :=
      if 0 < total_done then round1 ((unplanned_done_count : Rat) / (total_done : Rat) * 100) else 0
    { total_items := total_items
      total_estimate_hours := total_estimate_hours
      completion_percentage := completion_percentage
      planned_count := planned_count
      unplanned_count := unplanned_count
      unplanned_percentage := unplanned_percentage
      high_priority_not_started := high_priority_not_started
      items_by_status := groups.1
      items_by_priority := groups.2.1
      items_by_assignee := groups.2.2
      active_items := active_items
      active_completion_percentage := active_completion_percentage
      pending_items := pending_items
      in_progress_items := in_progress_items
      active_unplanned_percentage := active_unplanned_percentage
      active_unplanned_count := active_unplanned_count
      todo_items := todo_items
      done_active_items := done_active_items
      unplanned_done_percentage := unplanned_done_percentage
      unplanned_done_count := unplanned_done_count }

/-- Map the items inside a metrics aggregate, keeping every scalar field:
two aggregates related by `mapMetrics` have equal scalar fields and groupings
with identical keys holding corresponding items. -/
def mapMetrics {α β : Type} (f : α → β) (m : ProjectMetrics α) : ProjectMetrics β :=
  { total_items := m.total_items
    total_estimate_hours := m.total_estimate_hours
    completion_percentage := m.completion_percentage
    planned_count := m.planned_count
    unplanned_count := m.unplanned_count
    unplanned_percentage := m.unplanned_percentage
    high_priority_not_started := m.high_priority_not_started
    items_by_status := m.items_by_status.map (fun kv => (kv.1, kv.2.map f))
    items_by_priority := m.items_by_priority.map (fun kv => (kv.1, kv.2.map f))
    items_by_assignee := m.items_by_assignee.map (fun kv => (kv.1, kv.2.map f))
    active_items := m.active_items
    active_completion_percentage := m.active_completion_percentage
    pending_items := m.pending_items
    in_progress_items := m.in_progress_items
    active_unplanned_percentage := m.active_unplanned_percentage
    active_unplanned_count := m.active_unplanned_count
    todo_items := m.todo_items
    done_active_items := m.done_active_items
    unplanned_done_percentage := m.unplanned_done_percentage
    unplanned_done_count := m.unplanned_done_count }

/-- The sum of the group sizes of a grouping dict. -/
def sumGroupSizes {α : Type} (d : List (String × List α)) : Nat :=
  (d.map (fun kv => kv.2.length)).sum

/-- The number of groups an item lands in inside `group_by_assignee`: one per
assignee, or one (`"Unassigned"`) when it has none. -/
def assigneeContribution (item : ProjectItem) : Nat :=
  if item.assignees = [] then 1 else item.assignees.length

/-- A minimal concrete item, used for evaluating the development on closed
inputs. -/
def sampleItem (i : String) (st : Status) : ProjectItem :=
  { id := i, title := "t" ++ i, status := st, priority := Priority.P1, assignees := [],
    estimate_hours := none, labels := [], url := "", repository := "", issue_number := none }

theorem sumGroupSizes_dictInsertAppend {α : Type} (d : List (String × List α)) (k : String)
    (x : α) : sumGroupSizes (dictInsertAppend d k x) = sumGroupSizes d + 1 := by
  induction d with
  | nil => simp [dictInsertAppend, sumGroupSizes]
  | cons kv rest ih =>
    by_cases h : kv.1 = k
    · simp [dictInsertAppend, h, sumGroupSizes]
      omega
    · simp only [dictInsertAppend, if_neg h]
      simp only [sumGroupSizes, List.map_cons, List.sum_cons] at *
      omega

theorem sumGroupSizes_foldl_key {α : Type} (key : α → String) :
    ∀ (l : List α) (d : List (String × List α)),
      sumGroupSizes (l.foldl (fun g it => dictInsertAppend g (key it) it) d)
        = sumGroupSizes d + l.length := by
  intro l
  induction l with
  | nil => simp
  | cons x t ih =>
    intro d
    simp only [List.foldl_cons, ih, sumGroupSizes_dictInsertAppend, List.length_cons]
    omega

theorem sumGroupSizes_foldl_assignee {α : Type} (x : α) :
    ∀ (as : List String) (d : List (String × List α)),
      sumGroupSizes (as.foldl (fun g a => dictInsertAppend g a x) d)
        = sumGroupSizes d + as.length := by
  intro as
  induction as with
  | nil => simp
  | cons a t ih =>
    intro d
    simp only [List.foldl_cons, ih, sumGroupSizes_dictInsertAppend, List.length_cons]
    omega

theorem sumGroupSizes_foldl_assignee_step :
    ∀ (l : List ProjectItem) (d : List (String × List ProjectItem)),
      sumGroupSizes (l.foldl
        (fun grouped item =>
          if item.assignees = [] then dictInsertAppend grouped "Unassigned" item
          else item.assignees.foldl (fun grouped a => dictInsertAppend grouped a item) grouped) d)
        = sumGroupSizes d + (l.map assigneeContribution).sum := by
  intro l
  induction l with
  | nil => simp
  | cons x t ih =>
    intro d
    simp only [List.foldl_cons, ih, List.map_cons, List.sum_cons]
    by_cases h : x.assignees = []
    · simp [h, sumGroupSizes_dictInsertAppend, assigneeContribution]
      omega
    · simp [h, sumGroupSizes_foldl_assignee, assigneeContribution]
      omega

theorem sumGroupSizes_group_by_status (items : List ProjectItem) :
    sumGroupSizes (group_by_status items) = items.length := by
  have := sumGroupSizes_foldl_key (fun item => item.status.val) items []
  simpa [group_by_status, sumGroupSizes] using this

theorem sumGroupSizes_group_by_priority (items : List ProjectItem) :
    sumGroupSizes (group_by_priority items) = items.length := by
  have := sumGroupSizes_foldl_key (fun item => item.priority.val) items []
  simpa [group_by_priority, sumGroupSizes] using this

theorem sumGroupSizes_group_by_assignee (items : List ProjectItem) :
    sumGroupSizes (group_by_assignee items) = (items.map assigneeContribution).sum := by
  have := sumGroupSizes_foldl_assignee_step items []
  simpa [group_by_assignee, sumGroupSizes] using this

theorem one_le_assigneeContribution (item : ProjectItem) : 1 ≤ assigneeContribution item := by
  unfold assigneeContribution
  split
  · exact le_refl 1
  · rename_i h
    have : item.assignees ≠ [] := h
    have := List.length_pos.mpr this
    omega

theorem length_le_sum_assigneeContribution (items : List ProjectItem) :
    items.length ≤ (items.map assigneeContribution).sum := by
  induction items with
  | nil => simp
  | cons x t ih =>
    simp only [List.map_cons, List.sum_cons, List.length_cons]
    have := one_le_assigneeContribution x
    omega

theorem sum_assigneeContribution_of_le_one (items : List ProjectItem)
    (h : ∀ item ∈ items, item.assignees.length ≤ 1) :
    (items.map assigneeContribution).sum = items.length := by
  induction items with
  | nil => simp
  | cons x t ih =>
    simp only [List.map_cons, List.sum_cons, List.length_cons]
    have hx : assigneeContribution x = 1 := by
      unfold assigneeContribution
      split
      · rfl
      · rename_i hne
        have h1 : x.assignees.length ≤ 1 := h x (by simp)
        have h2 : x.assignees ≠ [] := hne
        have := List.length_pos.mpr h2
        omega
    rw [hx, ih (fun item hm => h item (by simp [hm]))]
    omega

theorem dictGet_dictInsertReplace {α : Type} (d : List (String × α)) (k i : String) (v : α) :
    dictGet (dictInsertReplace d k v) i = if k = i then some v else dictGet d i := by
  induction d with
  | nil => simp [dictInsertReplace, dictGet]
  | cons kv rest ih =>
    by_cases hk : kv.1 = k
    · subst hk
      by_cases h : kv.1 = i
      · simp [dictInsertReplace, dictGet, h]
      · simp [dictInsertReplace, dictGet, h]
    · simp only [dictInsertReplace, if_neg hk, dictGet, ih]
      by_cases h : kv.1 = i
      · have hne : ¬ k = i := fun hh => hk (h.trans hh.symm)
        simp [h, hne]
      · simp [h]

theorem dictKeys_dictInsertReplace {α : Type} (d : List (String × α)) (k : String) (v : α) :
    dictKeys (dictInsertReplace d k v)
      = if k ∈ dictKeys d then dictKeys d else dictKeys d ++ [k] := by
  induction d with
  | nil => simp [dictInsertReplace, dictKeys]
  | cons kv rest ih =>
    by_cases hk : kv.1 = k
    · subst hk
      simp [dictInsertReplace, dictKeys]
    · have hne : ¬ k = kv.1 := fun hh => hk hh.symm
      simp only [dictInsertReplace, if_neg hk, dictKeys, List.map_cons]
      simp only [dictKeys] at ih
      rw [ih]
      by_cases hm : k ∈ rest.map Prod.fst
      · rw [if_pos hm, if_pos (by simp [hm])]
      · rw [if_neg hm, if_neg (by simp [hm, hne])]
        rfl

theorem dictGet_eq_none_iff {α : Type} (d : List (String × α)) (i : String) :
    dictGet d i = none ↔ i ∉ dictKeys d := by
  induction d with
  | nil => simp [dictGet, dictKeys]
  | cons kv rest ih =>
    by_cases h : kv.1 = i
    · subst h
      simp [dictGet, dictKeys]
    · have hne : ¬ i = kv.1 := fun hh => h hh.symm
      simp [dictGet, dictKeys, h, ih, hne]

theorem dictGet_foldl_insertById (l : List ProjectItem) :
    ∀ (d : List (String × ProjectItem)) (i : String),
      dictGet (l.foldl (fun d item => dictInsertReplace d item.id item) d) i
        = (l.reverse.find? (fun item => item.id == i)).or (dictGet d i) := by
  induction l with
  | nil => simp
  | cons x t ih =>
    intro d i
    simp only [List.foldl_cons, ih, List.reverse_cons, List.find?_append]
    rw [Option.or_assoc]
    congr 1
    rw [dictGet_dictInsertReplace]
    by_cases h : x.id = i
    · have hb : (x.id == i) = true := by simp [h]
      simp [List.find?, h, hb]
    · have hb : (x.id == i) = false := by simp [h]
      simp [List.find?, h, hb]

theorem dictGet_buildById (l : List ProjectItem) (i : String) :
    dictGet (buildById l) i = l.reverse.find? (fun item => item.id == i) := by
  rw [buildById, dictGet_foldl_insertById]
  simp [dictGet]

theorem find?_reverse_of_nodup {α : Type} (f : α → String) :
    ∀ (l : List α) (i : String), (l.map f).Nodup →
      l.reverse.find? (fun x => f x == i) = l.find? (fun x => f x == i) := by
  intro l
  induction l with
  | nil => simp
  | cons x t ih =>
    intro i hnd
    simp only [List.map_cons, List.nodup_cons] at hnd
    simp only [List.reverse_cons, List.find?_append]
    by_cases h : f x = i
    · have hnone : t.reverse.find? (fun y => f y == i) = none := by
        rw [List.find?_eq_none]
        intro y hy
        simp only [beq_iff_eq]
        intro hfy
        apply hnd.1
        rw [h, ← hfy]
        exact List.mem_map_of_mem f (List.mem_reverse.mp hy)
      have hb : (f x == i) = true := by simp [h]
      rw [hnone]
      simp [List.find?, hb]
    · have hb : (f x == i) = false := by simp [h]
      have hx : ([x].find? (fun y => f y == i)) = none := by
        simp [List.find?, hb]
      rw [hx, Option.or_none, ih i hnd.2]
      simp [List.find?, hb]

theorem mem_dictKeys_dictInsertReplace {α : Type} (d : List (String × α)) (k : String) (v : α)
    (i : String) : i ∈ dictKeys (dictInsertReplace d k v) ↔ i ∈ dictKeys d ∨ i = k := by
  rw [dictKeys_dictInsertReplace]
  by_cases hm : k ∈ dictKeys d
  · simp only [if_pos hm]
    constructor
    · exact Or.inl
    · rintro (h | h)
      · exact h
      · exact h ▸ hm
  · simp [if_neg hm]

theorem nodup_dictKeys_dictInsertReplace {α : Type} (d : List (String × α)) (k : String) (v : α)
    (h : (dictKeys d).Nodup) : (dictKeys (dictInsertReplace d k v)).Nodup := by
  rw [dictKeys_dictInsertReplace]
  by_cases hm : k ∈ dictKeys d
  · simpa [hm] using h
  · simp only [if_neg hm]
    exact List.Nodup.append h (List.nodup_singleton k) (by simpa using hm)

theorem nodup_dictKeys_foldl_insertById (l : List ProjectItem) :
    ∀ d : List (String × ProjectItem), (dictKeys d).Nodup →
      (dictKeys (l.foldl (fun d item => dictInsertReplace d item.id item) d)).Nodup := by
  induction l with
  | nil => intro d h; simpa using h
  | cons x t ih =>
    intro d h
    exact ih _ (nodup_dictKeys_dictInsertReplace d x.id x h)

theorem nodup_dictKeys_buildById (l : List ProjectItem) : (dictKeys (buildById l)).Nodup := by
  exact nodup_dictKeys_foldl_insertById l [] (by simp [dictKeys])

theorem mem_dictKeys_foldl_insertById (l : List ProjectItem) :
    ∀ (d : List (String × ProjectItem)) (i : String),
      i ∈ dictKeys (l.foldl (fun d item => dictInsertReplace d item.id item) d)
        ↔ i ∈ dictKeys d ∨ i ∈ l.map ProjectItem.id := by
  induction l with
  | nil => simp
  | cons x t ih =>
    intro d i
    simp only [List.foldl_cons, ih, mem_dictKeys_dictInsertReplace, List.map_cons,
      List.mem_cons]
    tauto

theorem mem_dictKeys_buildById (l : List ProjectItem) (i : String) :
    i ∈ dictKeys (buildById l) ↔ i ∈ l.map ProjectItem.id := by
  rw [buildById, mem_dictKeys_foldl_insertById]
  simp [dictKeys]

theorem dictKeys_foldl_insertById_of_fresh (l : List ProjectItem) :
    ∀ d : List (String × ProjectItem), (l.map ProjectItem.id).Nodup →
      (∀ i ∈ l.map ProjectItem.id, i ∉ dictKeys d) →
      dictKeys (l.foldl (fun d item => dictInsertReplace d item.id item) d)
        = dictKeys d ++ l.map ProjectItem.id := by
  induction l with
  | nil => simp
  | cons x t ih =>
    intro d hnd hfresh
    simp only [List.map_cons, List.nodup_cons] at hnd
    simp only [List.foldl_cons]
    have hx : x.id ∉ dictKeys d := hfresh x.id (by simp)
    have hkeys : dictKeys (dictInsertReplace d x.id x) = dictKeys d ++ [x.id] := by
      rw [dictKeys_dictInsertReplace, if_neg hx]
    rw [ih (dictInsertReplace d x.id x) hnd.2]
    · rw [hkeys, List.append_assoc]
      simp
    · intro i hi
      rw [hkeys]
      simp only [List.mem_append, List.mem_singleton]
      rintro (h | h)
      · exact hfresh i (by simp [hi]) h
      · exact hnd.1 (h ▸ hi)

theorem dictKeys_buildById_of_nodup (l : List ProjectItem)
    (h : (l.map ProjectItem.id).Nodup) : dictKeys (buildById l) = l.map ProjectItem.id := by
  rw [buildById, dictKeys_foldl_insertById_of_fresh l [] h (by simp [dictKeys])]
  simp [dictKeys]

theorem maxByName_cases (f g : SnapshotFile) : maxByName f g = f ∨ maxByName f g = g := by
  unfold maxByName
  split
  · exact Or.inr rfl
  · exact Or.inl rfl

theorem le_maxByName_left (f g : SnapshotFile) : f.name ≤ (maxByName f g).name := by
  unfold maxByName
  split
  · rename_i h
    exact le_of_lt h
  · exact le_refl _

theorem le_maxByName_right (f g : SnapshotFile) : g.name ≤ (maxByName f g).name := by
  unfold maxByName
  split
  · exact le_refl _
  · rename_i h
    exact le_of_not_lt h

theorem foldl_maxByName_mem (l : List SnapshotFile) :
    ∀ f : SnapshotFile, l.foldl maxByName f ∈ f :: l := by
  induction l with
  | nil => simp
  | cons g t ih =>
    intro f
    simp only [List.foldl_cons]
    rcases List.mem_cons.mp (ih (maxByName f g)) with h1 | h1
    · rw [h1]
      rcases maxByName_cases f g with h2 | h2 <;> rw [h2] <;> simp
    · simp [h1]

theorem le_foldl_maxByName (l : List SnapshotFile) :
    ∀ f : SnapshotFile, ∀ g ∈ f :: l, g.name ≤ (l.foldl maxByName f).name := by
  induction l with
  | nil =>
    intro f g hg
    simp at hg
    subst hg
    exact le_refl _
  | cons x t ih =>
    intro f g hg
    simp only [List.foldl_cons]
    rcases List.mem_cons.mp hg with h1 | h1
    · subst h1
      exact le_trans (le_maxByName_left g x) (ih (maxByName g x) _ (by simp))
    · rcases List.mem_cons.mp h1 with h2 | h2
      · subst h2
        exact le_trans (le_maxByName_right f g) (ih (maxByName f g) _ (by simp))
      · exact ih (maxByName f x) g (by simp [h2])

theorem maxByName_of_lt (f g : SnapshotFile) (h : f.name < g.name) : maxByName f g = g := by
  unfold maxByName
  rw [if_pos h]

theorem foldl_maxByName_append_gt (l : List SnapshotFile) (f x : SnapshotFile)
    (h : ∀ g ∈ f :: l, g.name < x.name) :
    (l ++ [x]).foldl maxByName f = x := by
  rw [List.foldl_append]
  have hlt : (l.foldl maxByName f).name < x.name := h _ (foldl_maxByName_mem l f)
  simp only [List.foldl_cons, List.foldl_nil]
  exact maxByName_of_lt _ _ hlt

theorem writeFile_of_fresh (files : List SnapshotFile) (name : String) (data : SnapshotData)
    (h : ∀ f ∈ files, f.name ≠ name) :
    writeFile files name data = files ++ [{ name := name, data := data }] := by
  induction files with
  | nil => simp [writeFile]
  | cons f rest ih =>
    simp only [writeFile]
    rw [if_neg (h f (by simp))]
    rw [ih (fun g hg => h g (by simp [hg]))]
    simp

theorem statusOfString_val (s : Status) : statusOfString s.val = some s := by
  cases s <;> rfl

theorem priorityOfString_val (p : Priority) : priorityOfString p.val = some p := by
  cases p <;> rfl

theorem deserialize_serialize_item (item : ProjectItem) :
    deserialize_item (serialize_item item) = .ok item := by
  unfold deserialize_item serialize_item
  simp only [statusOfString_val, priorityOfString_val]

theorem mapExcept_deserialize_serialize (items : List ProjectItem) :
    mapExcept deserialize_item (items.map serialize_item) = Except.ok items := by
  induction items with
  | nil => rfl
  | cons x t ih =>
    simp only [List.map_cons, mapExcept, deserialize_serialize_item, ih]

theorem matchesSnapshotGlob_append (c : String) :
    matchesSnapshotGlob ("snapshot-" ++ c ++ ".json") = true := by
  unfold matchesSnapshotGlob
  have hdata : ("snapshot-" ++ c ++ ".json").data
      = "snapshot-".data ++ (c.data ++ ".json".data) := by
    rw [String.data_append, String.data_append, List.append_assoc]
  simp only [hdata, Bool.and_eq_true]
  refine ⟨⟨?_, ?_⟩, ?_⟩
  · exact List.isPrefixOf_iff_prefix.mpr (List.prefix_append _ _)
  · apply List.isSuffixOf_iff_suffix.mpr
    rw [← List.append_assoc]
    exact List.suffix_append _ _
  · simp only [decide_eq_true_eq, List.length_append, List.length_cons, List.length_nil]
    omega

theorem map_dictInsertAppend {α β : Type} (f : α → β) (d : List (String × List α)) (k : String)
    (x : α) :
    (dictInsertAppend d k x).map (fun kv => (kv.1, kv.2.map f))
      = dictInsertAppend (d.map (fun kv => (kv.1, kv.2.map f))) k (f x) := by
  induction d with
  | nil => simp [dictInsertAppend]
  | cons kv rest ih =>
    by_cases h : kv.1 = k
    · simp [dictInsertAppend, h]
    · simp [dictInsertAppend, h, ih]

theorem map_foldl_group {α β : Type} (f : α → β) (key : α → String) (keyB : β → String)
    (hkey : ∀ a, keyB (f a) = key a) :
    ∀ (l : List α) (d : List (String × List α)),
      (l.foldl (fun g it => dictInsertAppend g (key it) it) d).map (fun kv => (kv.1, kv.2.map f))
        = (l.map f).foldl (fun g it => dictInsertAppend g (keyB it) it)
            (d.map (fun kv => (kv.1, kv.2.map f))) := by
  intro l
  induction l with
  | nil => simp
  | cons x t ih =>
    intro d
    simp only [List.foldl_cons, List.map_cons, ih, map_dictInsertAppend, hkey]

theorem map_foldl_assignee_inner {α β : Type} (f : α → β) (x : α) :
    ∀ (as : List String) (d : List (String × List α)),
      (as.foldl (fun g a => dictInsertAppend g a x) d).map (fun kv => (kv.1, kv.2.map f))
        = as.foldl (fun g a => dictInsertAppend g a (f x))
            (d.map (fun kv => (kv.1, kv.2.map f))) := by
  intro as
  induction as with
  | nil => simp
  | cons a t ih =>
    intro d
    simp only [List.foldl_cons, ih, map_dictInsertAppend]

theorem map_foldl_assignee {α β : Type} (f : α → β) (asg : α → List String)
    (asgB : β → List String) (hasg : ∀ a, asgB (f a) = asg a) :
    ∀ (l : List α) (d : List (String × List α)),
      (l.foldl
          (fun g it =>
            if asg it = [] then dictInsertAppend g "Unassigned" it
            else (asg it).foldl (fun g a => dictInsertAppend g a it) g) d).map
          (fun kv => (kv.1, kv.2.map f))
        = (l.map f).foldl
            (fun g it =>
              if asgB it = [] then dictInsertAppend g "Unassigned" it
              else (asgB it).foldl (fun g a => dictInsertAppend g a it) g)
            (d.map (fun kv => (kv.1, kv.2.map f))) := by
  intro l
  induction l with
  | nil => simp
  | cons x t ih =>
    intro d
    simp only [List.foldl_cons, List.map_cons, ih, hasg]
    by_cases h : asg x = []
    · simp [h, map_dictInsertAppend]
    · simp [h, map_foldl_assignee_inner]

theorem foldl_triple_split {α A B C : Type} (fa : A → α → A) (fb : B → α → B) (fc : C → α → C) :
    ∀ (l : List α) (a : A) (b : B) (c : C),
      l.foldl (fun acc x => (fa acc.1 x, fb acc.2.1 x, fc acc.2.2 x)) (a, b, c)
        = (l.foldl fa a, l.foldl fb b, l.foldl fc c) := by
  intro l
  induction l with
  | nil => simp
  | cons x t ih =>
    intro a b c
    simp only [List.foldl_cons]
    exact ih (fa a x) (fb b x) (fc c x)

theorem metricsGroupsV2_eq (items : List ProjectItemV2) :
    metricsGroupsV2 items
      = (items.foldl (fun g it => dictInsertAppend g it.status.val it) [],
         items.foldl (fun g it => dictInsertAppend g it.priority.val it) [],
         items.foldl
           (fun g it =>
             if it.assignees = [] then dictInsertAppend g "Unassigned" it
             else it.assignees.foldl (fun g a => dictInsertAppend g a it) g) []) := by
  unfold metricsGroupsV2
  exact foldl_triple_split
    (fun g it => dictInsertAppend g it.status.val it)
    (fun g it => dictInsertAppend g it.priority.val it)
    (fun g it =>
      if it.assignees = [] then dictInsertAppend g "Unassigned" it
      else it.assignees.foldl (fun g a => dictInsertAppend g a it) g)
    items [] [] []

theorem groups_v2_status (items : List ProjectItemV2) :
    (metricsGroupsV2 items).1.map
        (fun kv => (kv.1, kv.2.map ProjectItemV2.toProjectItem))
      = group_by_status (items.map ProjectItemV2.toProjectItem) := by
  rw [metricsGroupsV2_eq]
  unfold group_by_status
  have := map_foldl_group ProjectItemV2.toProjectItem
    (fun it => it.status.val) (fun it => it.status.val) (fun a => rfl) items []
  simpa using this

theorem groups_v2_priority (items : List ProjectItemV2) :
    (metricsGroupsV2 items).2.1.map
        (fun kv => (kv.1, kv.2.map ProjectItemV2.toProjectItem))
      = group_by_priority (items.map ProjectItemV2.toProjectItem) := by
  rw [metricsGroupsV2_eq]
  unfold group_by_priority
  have := map_foldl_group ProjectItemV2.toProjectItem
    (fun it => it.priority.val) (fun it => it.priority.val) (fun a => rfl) items []
  simpa using this

theorem groups_v2_assignee (items : List ProjectItemV2) :
    (metricsGroupsV2 items).2.2.map
        (fun kv => (kv.1, kv.2.map ProjectItemV2.toProjectItem))
      = group_by_assignee (items.map ProjectItemV2.toProjectItem) := by
  rw [metricsGroupsV2_eq]
  unfold group_by_assignee
  have := map_foldl_assignee ProjectItemV2.toProjectItem
    (fun it => it.assignees) (fun it => it.assignees) (fun a => rfl) items []
  simpa using this

theorem parseStatusFieldV2_eq (v : RawVal) : parseStatusFieldV2 v = parseStatusField v := rfl

theorem parsePriorityFieldV2_eq (v : RawVal) : parsePriorityFieldV2 v = parsePriorityField v := rfl

theorem parse_item_v2_toProjectItem (raw : RawItemV2) :
    (parse_item_v2 raw).map ProjectItemV2.toProjectItem = parse_item raw.toRawItem := by
  unfold parse_item_v2 parse_item
  rw [parsePriorityFieldV2_eq, parseStatusFieldV2_eq]
  cases h : parsePriorityField (raw.toRawItem.priority.getD (.vstr "P2")) with
  | error e => simp [h, Except.map]
  | ok p =>
    cases hc : raw.toRawItem.content.getD
        (.cdict { url := none, repository := none, number := none }) with
    | cnull => simp [h, hc, Except.map]
    | cint n => simp [h, hc, Except.map]
    | cdict ct => simp [h, hc, Except.map]

theorem parse_items_v2_toProjectItem (raws : List RawItemV2) :
    (parse_items_v2 raws).map (List.map ProjectItemV2.toProjectItem)
      = parse_items (raws.map RawItemV2.toRawItem) := by
  unfold parse_items_v2 parse_items
  induction raws with
  | nil => rfl
  | cons r t ih =>
    simp only [List.map_cons, mapExcept]
    cases h : parse_item_v2 r with
    | error e =>
      have h1 : parse_item r.toRawItem = .error e := by
        rw [← parse_item_v2_toProjectItem, h]
        rfl
      simp [h, h1, Except.map]
    | ok item =>
      have h1 : parse_item r.toRawItem = .ok item.toProjectItem := by
        rw [← parse_item_v2_toProjectItem, h]
        rfl
      cases ht : mapExcept parse_item_v2 t with
      | error e2 =>
        have h2 : mapExcept parse_item (t.map RawItemV2.toRawItem) = .error e2 := by
          rw [← ih, ht]
          rfl
        simp [h, h1, ht, h2, Except.map]
      | ok l =>
        have h2 : mapExcept parse_item (t.map RawItemV2.toRawItem)
            = .ok (l.map ProjectItemV2.toProjectItem) := by
          rw [← ih, ht]
          rfl
        simp [h, h1, ht, h2, Except.map]

theorem calculate_unplanned_done_stats_eq (l : List ProjectItem) :
    calculate_unplanned_done_stats l
      = (if 0 < (l.filter (fun it => it.status = Status.DONE)).length then
           round1
             (((l.filter (fun it => it.status = Status.DONE)).countP
                 (fun it => it.priority = Priority.FIRE) : Rat)
               / ((l.filter (fun it => it.status = Status.DONE)).length : Rat) * 100)
         else 0,
         (l.filter (fun it => it.status = Status.DONE)).countP
           (fun it => it.priority = Priority.FIRE)) := by
  unfold calculate_unplanned_done_stats
  by_cases h : (l.filter (fun it => it.status = Status.DONE)).length = 0
  · have hnil := List.length_eq_zero.mp h
    simp [h, hnil]
  · have hpos : 0 < (l.filter (fun it => it.status = Status.DONE)).length := Nat.pos_of_ne_zero h
    simp [h, hpos]

theorem calculate_metrics_v2_toProjectItem (items : List ProjectItemV2) :
    mapMetrics ProjectItemV2.toProjectItem (calculate_metrics_v2 items)
      = calculate_metrics (items.map ProjectItemV2.toProjectItem) := by
  cases items with
  | nil => rfl
  | cons x0 t0 =>
    unfold calculate_metrics_v2 calculate_metrics mapMetrics
    rw [if_neg (by simp), if_neg (by simp)]
    simp only [ProjectMetrics.mk.injEq]
    refine ⟨?_, ?_, ?_, ?_, ?_, ?_, ?_, ?_, ?_, ?_, ?_, ?_, ?_, ?_, ?_, ?_, ?_, ?_, ?_, ?_⟩
    all_goals
      simp only [List.countP_map, List.filter_map, List.filterMap_map, List.length_map,
        Function.comp_def, ProjectItem.is_planned, ProjectItemV2.is_planned,
        calculate_todo_count, calculate_done_active_count, calculate_unplanned_done_stats_eq,
        groups_v2_status, groups_v2_priority, groups_v2_assignee]

theorem parse_item_ok_priority (raw : RawItem) (item : ProjectItem)
    (h : parse_item raw = .ok item) :
    parsePriorityField (raw.priority.getD (.vstr "P2")) = .ok item.priority := by
  unfold parse_item at h
  split at h
  · exact absurd h (by simp)
  · rename_i p hp
    cases hcv : raw.content.getD
        (.cdict { url := none, repository := none, number := none }) with
    | cnull =>
      rw [hcv] at h
      exact absurd h (by simp)
    | cint n =>
      rw [hcv] at h
      exact absurd h (by simp)
    | cdict ct =>
      rw [hcv] at h
      simp only [] at h
      injection h with h2
      rw [hp, ← h2]

theorem parsePriorityField_vstr_not_member (s : String) (hnone : priorityOfString s = none) :
    parsePriorityField (RawVal.vstr s)
      = .ok (if s ≠ "" ∧ strStartsWith s "P" = true ∧ 2 < s.length
             then Priority.FIRE else Priority.P2) := by
  unfold parsePriorityField
  simp only [priorityOfValue]
  rw [hnone]
  by_cases hne : s = ""
  · subst hne
    simp [RawVal.truthy]
  · by_cases hsw : strStartsWith s "P" = true
    · by_cases hlen : 2 < s.length
      · simp [RawVal.truthy, hne, hsw, hlen]
      · simp [RawVal.truthy, hne, hsw, hlen]
    · simp [RawVal.truthy, hne, hsw]

theorem parsePriorityField_vstr_member (s : String) (p : Priority)
    (hsome : priorityOfString s = some p) :
    parsePriorityField (RawVal.vstr s) = .ok p := by
  unfold parsePriorityField
  simp only [priorityOfValue]
  rw [hsome]

theorem parsePriorityField_vnull : parsePriorityField RawVal.vnull = .ok Priority.P2 := rfl

/-- Claim C1: for a raw `priority` string that matches no `Priority` member,
`parse_item` applies the recovery heuristic — the resulting Item's priority is
`FIRE` when the string is non-empty, starts with `P` and is longer than two
characters, and `P2` otherwise (including the empty string); a matching string
maps to its member, and a missing or `None` priority yields `P2`. -/
theorem claim_c1_priority_recovery (raw : RawItem) (s : String) (p : Priority)
    (item : ProjectItem) (hok : parse_item raw = .ok item) :
    (raw.priority = some (RawVal.vstr s) → priorityOfString s = none →
      ((s ≠ "" ∧ strStartsWith s "P" = true ∧ 2 < s.length →
          item.priority = Priority.FIRE)
        ∧ (¬(s ≠ "" ∧ strStartsWith s "P" = true ∧ 2 < s.length) →
          item.priority = Priority.P2)))
    ∧ (raw.priority = some (RawVal.vstr s) → priorityOfString s = some p →
        item.priority = p)
    ∧ (raw.priority = none ∨ raw.priority = some RawVal.vnull →
        item.priority = Priority.P2) := by
  have hpf := parse_item_ok_priority raw item hok
  refine ⟨?_, ?_, ?_⟩
  · intro hraw hnone
    rw [hraw, Option.getD_some, parsePriorityField_vstr_not_member s hnone] at hpf
    constructor
    · intro hcond
      rw [if_pos hcond] at hpf
      injection hpf with hh
      exact hh.symm
    · intro hcond
      rw [if_neg hcond] at hpf
      injection hpf with hh
      exact hh.symm
  · intro hraw hsome
    rw [hraw, Option.getD_some, parsePriorityField_vstr_member s p hsome] at hpf
    injection hpf with hh
    exact hh.symm
  · intro hraw
    rcases hraw with hraw | hraw
    · rw [hraw] at hpf
      injection hpf with hh
      exact hh.symm
    · rw [hraw, Option.getD_some, parsePriorityField_vnull] at hpf
      injection hpf with hh
      exact hh.symm

theorem claim_c1_priority_recovery_witness :
    (parse_item
        { id := some "1", title := some "Test", status := some (.vstr "Todo"),
          priority := some (.vstr "P≡ا¤ح"), assignees := some [], estimate := none,
          labels := some [], content := none }
      = .ok
        { id := "1", title := "Test", status := Status.TODO, priority := Priority.FIRE,
          assignees := [], estimate_hours := none, labels := [], url := "",
          repository := "", issue_number := none }
      ∧ priorityOfString "P≡ا¤ح" = none
      ∧ ("P≡ا¤ح" ≠ "" ∧ strStartsWith "P≡ا¤ح" "P" = true ∧ 2 < "P≡ا¤ح".length))
    ∧ (ProjectItem.priority
        { id := "1", title := "Test", status := Status.TODO, priority := Priority.FIRE,
          assignees := [], estimate_hours := none, labels := [], url := "",
          repository := "", issue_number := none })
      = Priority.FIRE :=
  ⟨⟨rfl, by decide, by decide⟩,
    ((claim_c1_priority_recovery
        { id := some "1", title := some "Test", status := some (.vstr "Todo"),
          priority := some (.vstr "P≡ا¤ح"), assignees := some [], estimate := none,
          labels := some [], content := none }
        "P≡ا¤ح" Priority.P2
        { id := "1", title := "Test", status := Status.TODO, priority := Priority.FIRE,
          assignees := [], estimate_hours := none, labels := [], url := "",
          repository := "", issue_number := none }
        rfl).1 rfl (by decide)).1 (by decide)⟩

/-- Claim C3 counterexample: `parse_item` is not total on arbitrary malformed
records — a record whose `priority` key holds the integer `1` (truthy,
non-string) raises `AttributeError` at `priority_value.startswith` inside the
recovery heuristic, and a record whose `content` key holds null raises
`AttributeError` at `content.get('url', '')`; neither returns an `Item`. -/
theorem claim_c3_counterexample :
    parse_item
        { id := some "1", title := some "Test", status := some (.vstr "Todo"),
          priority := some (.vint 1), assignees := some [], estimate := none,
          labels := some [], content := none }
      = .error .attributeError
    ∧ parse_item
        { id := some "1", title := some "Test", status := some (.vstr "Todo"),
          priority := some (.vstr "P1"), assignees := some [], estimate := none,
          labels := some [], content := some .cnull }
      = .error .attributeError :=
  ⟨rfl, rfl⟩

theorem mem_priority_list (p : Priority) :
    p ∈ [Priority.FIRE, Priority.P0, Priority.P1, Priority.P2] := by
  cases p <;> simp

theorem mem_status_list (s : Status) :
    s ∈ [Status.BACKLOG, Status.TODO, Status.PENDING, Status.IN_PROGRESS,
      Status.IN_REVIEW, Status.DONE] := by
  cases s <;> simp

/-- Claim C3 (amended): for every raw record whose `priority` field, when
present, is null or a string, and whose `content` field, when present, is a
mapping, `parse_item` raises nothing and returns exactly one Item whose
status and priority are legal enumeration members; a truthy non-string
priority or a present non-mapping `content` instead raises. -/
theorem claim_c3_amended (raw : RawItem)
    (hpr : raw.priority = none ∨ raw.priority = some RawVal.vnull
        ∨ ∃ s, raw.priority = some (RawVal.vstr s))
    (hct : raw.content = none ∨ ∃ ct, raw.content = some (RawContentVal.cdict ct)) :
    ∃ item, parse_item raw = .ok item
      ∧ item.priority ∈ [Priority.FIRE, Priority.P0, Priority.P1, Priority.P2]
      ∧ item.status ∈ [Status.BACKLOG, Status.TODO, Status.PENDING, Status.IN_PROGRESS,
          Status.IN_REVIEW, Status.DONE] := by
  have hok : ∃ p, parsePriorityField (raw.priority.getD (.vstr "P2")) = .ok p := by
    rcases hpr with h | h | ⟨s, h⟩
    · rw [h]
      exact ⟨Priority.P2, rfl⟩
    · rw [h, Option.getD_some]
      exact ⟨Priority.P2, parsePriorityField_vnull⟩
    · rw [h, Option.getD_some]
      cases hs : priorityOfString s with
      | some p => exact ⟨p, parsePriorityField_vstr_member s p hs⟩
      | none => exact ⟨_, parsePriorityField_vstr_not_member s hs⟩
  rcases hok with ⟨p, hp⟩
  rcases hct with hct | ⟨ct, hct⟩
  · have hparse : parse_item raw = .ok
        { id := raw.id.getD "", title := raw.title.getD "",
          status := parseStatusField (raw.status.getD (.vstr "Backlog")),
          priority := p,
          assignees := raw.assignees.getD [],
          estimate_hours := raw.estimate,
          labels := raw.labels.getD [],
          url := "", repository := "", issue_number := none } := by
      unfold parse_item
      rw [hct, hp]
      rfl
    exact ⟨_, hparse, mem_priority_list _, mem_status_list _⟩
  · have hparse : parse_item raw = .ok
        { id := raw.id.getD "", title := raw.title.getD "",
          status := parseStatusField (raw.status.getD (.vstr "Backlog")),
          priority := p,
          assignees := raw.assignees.getD [],
          estimate_hours := raw.estimate,
          labels := raw.labels.getD [],
          url := ct.url.getD "", repository := ct.repository.getD "",
          issue_number := ct.number } := by
      unfold parse_item
      rw [hct, hp]
      rfl
    exact ⟨_, hparse, mem_priority_list _, mem_status_list _⟩

theorem claim_c3_amended_witness :
    (((none : Option RawVal) = none ∨ (none : Option RawVal) = some RawVal.vnull
        ∨ ∃ s, (none : Option RawVal) = some (RawVal.vstr s))
      ∧ ((none : Option RawContentVal) = none
        ∨ ∃ ct, (none : Option RawContentVal) = some (RawContentVal.cdict ct)))
    ∧ ∃ item,
        parse_item
            { id := none, title := none, status := none, priority := none,
              assignees := none, estimate := none, labels := none, content := none }
          = .ok item
        ∧ item.priority ∈ [Priority.FIRE, Priority.P0, Priority.P1, Priority.P2]
        ∧ item.status ∈ [Status.BACKLOG, Status.TODO, Status.PENDING, Status.IN_PROGRESS,
            Status.IN_REVIEW, Status.DONE] :=
  ⟨⟨Or.inl rfl, Or.inl rfl⟩,
    claim_c3_amended
      { id := none, title := none, status := none, priority := none,
        assignees := none, estimate := none, labels := none, content := none }
      (Or.inl rfl) (Or.inl rfl)⟩

/-- Claim C7: `calculate_metrics` on the empty list returns an aggregate whose
every numeric field is zero and whose three groupings are empty maps. -/
theorem claim_c7_empty_metrics :
    (calculate_metrics []).total_items = 0
    ∧ (calculate_metrics []).total_estimate_hours = 0
    ∧ (calculate_metrics []).completion_percentage = 0
    ∧ (calculate_metrics []).planned_count = 0
    ∧ (calculate_metrics []).unplanned_count = 0
    ∧ (calculate_metrics []).unplanned_percentage = 0
    ∧ (calculate_metrics []).high_priority_not_started = 0
    ∧ (calculate_metrics []).items_by_status = []
    ∧ (calculate_metrics []).items_by_priority = []
    ∧ (calculate_metrics []).items_by_assignee = []
    ∧ (calculate_metrics []).active_items = 0
    ∧ (calculate_metrics []).active_completion_percentage = 0
    ∧ (calculate_metrics []).pending_items = 0
    ∧ (calculate_metrics []).in_progress_items = 0
    ∧ (calculate_metrics []).active_unplanned_percentage = 0
    ∧ (calculate_metrics []).active_unplanned_count = 0
    ∧ (calculate_metrics []).todo_items = 0
    ∧ (calculate_metrics []).done_active_items = 0
    ∧ (calculate_metrics []).unplanned_done_percentage = 0
    ∧ (calculate_metrics []).unplanned_done_count = 0 :=
  ⟨rfl, rfl, rfl, rfl, rfl, rfl, rfl, rfl, rfl, rfl, rfl, rfl, rfl, rfl, rfl, rfl, rfl, rfl,
    rfl, rfl⟩

/-- Claim C9: `get_workload_color` returns the red tier exactly for counts
above 10, the yellow tier exactly for counts from 6 to 10 inclusive, and the
green tier exactly for counts below 6. -/
theorem claim_c9_workload_color (n : Int) (h : 0 ≤ n) :
    (get_workload_color n = "red" ↔ 10 < n)
    ∧ (get_workload_color n = "yellow" ↔ 6 ≤ n ∧ n ≤ 10)
    ∧ (get_workload_color n = "green" ↔ n < 6) := by
  unfold get_workload_color
  split_ifs with h1 h2
  · exact ⟨⟨fun _ => h1, fun _ => rfl⟩,
      ⟨fun hh => absurd hh (by decide), fun hh => absurd h1 (by omega)⟩,
      ⟨fun hh => absurd hh (by decide), fun hh => absurd h1 (by omega)⟩⟩
  · exact ⟨⟨fun hh => absurd hh (by decide), fun hh => absurd hh h1⟩,
      ⟨fun _ => ⟨h2, by omega⟩, fun _ => rfl⟩,
      ⟨fun hh => absurd hh (by decide), fun hh => absurd h2 (by omega)⟩⟩
  · exact ⟨⟨fun hh => absurd hh (by decide), fun hh => absurd hh h1⟩,
      ⟨fun hh => absurd hh (by decide), fun hh => absurd hh.1 h2⟩,
      ⟨fun _ => by omega, fun _ => rfl⟩⟩

theorem claim_c9_workload_color_witness :
    (0 : Int) ≤ 6
    ∧ (get_workload_color 6 = "yellow" ↔ (6 : Int) ≤ 6 ∧ (6 : Int) ≤ 10) :=
  ⟨by decide, (claim_c9_workload_color 6 (by decide)).2.1⟩

theorem calculate_metrics_fields (items : List ProjectItem) (h : items.isEmpty = false) :
    (calculate_metrics items).total_items = items.length
    ∧ (calculate_metrics items).planned_count
        = items.length - items.countP (fun item => !item.is_planned)
    ∧ (calculate_metrics items).unplanned_count
        = items.countP (fun item => !item.is_planned)
    ∧ (calculate_metrics items).items_by_status = group_by_status items
    ∧ (calculate_metrics items).items_by_priority = group_by_priority items
    ∧ (calculate_metrics items).items_by_assignee = group_by_assignee items := by
  unfold calculate_metrics
  rw [if_neg (by simp [h])]
  exact ⟨rfl, rfl, rfl, rfl, rfl, rfl⟩

/-- Claim C2: for every non-empty item list, `calculate_metrics` satisfies
`planned_count + unplanned_count = total_items`; the group sizes of
`items_by_status` and of `items_by_priority` each sum to `total_items`; the
group sizes of `items_by_assignee` sum to at least `total_items`, with
equality when every item has at most one assignee. -/
theorem claim_c2_metrics_invariants (items : List ProjectItem) (h : items ≠ []) :
    (calculate_metrics items).planned_count + (calculate_metrics items).unplanned_count
        = (calculate_metrics items).total_items
    ∧ sumGroupSizes (calculate_metrics items).items_by_status
        = (calculate_metrics items).total_items
    ∧ sumGroupSizes (calculate_metrics items).items_by_priority
        = (calculate_metrics items).total_items
    ∧ (calculate_metrics items).total_items
        ≤ sumGroupSizes (calculate_metrics items).items_by_assignee
    ∧ ((∀ item ∈ items, item.assignees.length ≤ 1) →
        sumGroupSizes (calculate_metrics items).items_by_assignee
          = (calculate_metrics items).total_items) := by
  have hE : items.isEmpty = false := by
    cases items with
    | nil => exact absurd rfl h
    | cons x t => rfl
  obtain ⟨h1, h2, h3, h4, h5, h6⟩ := calculate_metrics_fields items hE
  refine ⟨?_, ?_, ?_, ?_, ?_⟩
  · rw [h1, h2, h3]
    exact Nat.sub_add_cancel (List.countP_le_length _)
  · rw [h1, h4, sumGroupSizes_group_by_status]
  · rw [h1, h5, sumGroupSizes_group_by_priority]
  · rw [h1, h6, sumGroupSizes_group_by_assignee]
    exact length_le_sum_assigneeContribution items
  · intro hone
    rw [h1, h6, sumGroupSizes_group_by_assignee]
    exact sum_assigneeContribution_of_le_one items hone

theorem claim_c2_metrics_invariants_witness :
    ([{ id := "1", title := "a", status := Status.TODO, priority := Priority.FIRE,
        assignees := ["u"], estimate_hours := none, labels := [], url := "",
        repository := "", issue_number := none }] : List ProjectItem) ≠ []
    ∧ (calculate_metrics
          [{ id := "1", title := "a", status := Status.TODO, priority := Priority.FIRE,
             assignees := ["u"], estimate_hours := none, labels := [], url := "",
             repository := "", issue_number := none }]).planned_count
        + (calculate_metrics
            [{ id := "1", title := "a", status := Status.TODO, priority := Priority.FIRE,
               assignees := ["u"], estimate_hours := none, labels := [], url := "",
               repository := "", issue_number := none }]).unplanned_count
        = (calculate_metrics
            [{ id := "1", title := "a", status := Status.TODO, priority := Priority.FIRE,
               assignees := ["u"], estimate_hours := none, labels := [], url := "",
               repository := "", issue_number := none }]).total_items :=
  ⟨by decide,
    (claim_c2_metrics_invariants
      [{ id := "1", title := "a", status := Status.TODO, priority := Priority.FIRE,
         assignees := ["u"], estimate_hours := none, labels := [], url := "",
         repository := "", issue_number := none }] (by decide)).1⟩

theorem compare_items_completed_eq (current previous : List ProjectItem) :
    (compare_snapshots current (some previous)).items_completed
      = (current.filter (fun item =>
          match previous.reverse.find? (fun prev => prev.id == item.id) with
          | some prev => decide (prev.status ≠ Status.DONE) && decide (item.status = Status.DONE)
          | none => false)).length := by
  have h0 : (compare_snapshots current (some previous)).items_completed
      = current.countP (fun item =>
          match dictGet (buildById previous) item.id with
          | some prev => decide (prev.status ≠ Status.DONE) && decide (item.status = Status.DONE)
          | none => false) := rfl
  rw [h0]
  simp only [dictGet_buildById]
  rw [List.countP_eq_length_filter]

theorem compare_status_changes_eq (current previous : List ProjectItem) :
    (compare_snapshots current (some previous)).status_changes
      = current.filterMap (fun item =>
          match previous.reverse.find? (fun prev => prev.id == item.id) with
          | some prev =>
            if prev.status ≠ item.status then
              some { id := item.id, title := item.title,
                     from_status := prev.status.val, to_status := item.status.val }
            else none
          | none => none) := by
  have h0 : (compare_snapshots current (some previous)).status_changes
      = current.filterMap (fun item =>
          match dictGet (buildById previous) item.id with
          | some prev =>
            if prev.status ≠ item.status then
              some { id := item.id, title := item.title,
                     from_status := prev.status.val, to_status := item.status.val }
            else none
          | none => none) := rfl
  rw [h0]
  simp only [dictGet_buildById]

theorem compare_items_added_card (current previous : List ProjectItem) :
    (compare_snapshots current (some previous)).items_added
      = ((current.map ProjectItem.id).toFinset
          \ (previous.map ProjectItem.id).toFinset).card := by
  have h0 : (compare_snapshots current (some previous)).items_added
      = (dictKeys (buildById current)).countP
          (fun item_id => (dictGet (buildById previous) item_id).isNone) := rfl
  rw [h0, List.countP_eq_length_filter]
  have hnd : (dictKeys (buildById current)).Nodup := nodup_dictKeys_buildById current
  have hndf := hnd.filter (fun item_id => (dictGet (buildById previous) item_id).isNone)
  rw [← List.toFinset_card_of_nodup hndf]
  congr 1
  ext i
  simp only [List.mem_toFinset, List.mem_filter, Finset.mem_sdiff,
    mem_dictKeys_buildById, Option.isNone_iff_eq_none, dictGet_eq_none_iff]

theorem contains_iff_mem (l : List String) (a : String) : l.contains a = true ↔ a ∈ l := by
  rw [show l.contains a = l.elem a from rfl, List.elem_iff]

theorem compare_items_added_of_nodup (current previous : List ProjectItem)
    (hc : (current.map ProjectItem.id).Nodup) :
    (compare_snapshots current (some previous)).items_added
      = (current.filter
          (fun item => !(previous.map ProjectItem.id).contains item.id)).length := by
  have h0 : (compare_snapshots current (some previous)).items_added
      = (dictKeys (buildById current)).countP
          (fun item_id => (dictGet (buildById previous) item_id).isNone) := rfl
  rw [h0, dictKeys_buildById_of_nodup current hc, List.countP_map,
    ← List.countP_eq_length_filter]
  apply List.countP_congr
  intro item hmem
  rw [Function.comp_apply, Option.isNone_iff_eq_none, dictGet_eq_none_iff,
    mem_dictKeys_buildById]
  constructor
  · intro hl
    have hnc : ¬ (previous.map ProjectItem.id).contains item.id = true :=
      fun hcv => hl ((contains_iff_mem _ _).mp hcv)
    cases hcv : (previous.map ProjectItem.id).contains item.id
    · rfl
    · exact absurd hcv hnc
  · intro hr hmem2
    have hcv : (previous.map ProjectItem.id).contains item.id = true :=
      (contains_iff_mem _ _).mpr hmem2
    rw [hcv] at hr
    exact absurd hr (by decide)

/-- Claim C4: `compare_snapshots` returns all-zero counts and no status
changes when `previous` is the `None` sentinel; otherwise, over id-unique
snapshots, `items_completed` counts the ids present on both sides that moved
to `Done`, `items_added` counts the ids of `current` absent from `previous`,
and `status_changes` lists one entry per id present on both sides with a
differing status, in current's order; removed items contribute nothing. -/
theorem claim_c4_compare_snapshots (current previous : List ProjectItem)
    (hc : (current.map ProjectItem.id).Nodup) (hp : (previous.map ProjectItem.id).Nodup) :
    compare_snapshots current none
        = { items_completed := 0, items_added := 0, status_changes := [] }
    ∧ (compare_snapshots current (some previous)).items_completed
        = (current.filter (fun item =>
            match previous.find? (fun prev => prev.id == item.id) with
            | some prev =>
              decide (prev.status ≠ Status.DONE) && decide (item.status = Status.DONE)
            | none => false)).length
    ∧ (compare_snapshots current (some previous)).items_added
        = (current.filter
            (fun item => !(previous.map ProjectItem.id).contains item.id)).length
    ∧ (compare_snapshots current (some previous)).status_changes
        = current.filterMap (fun item =>
            match previous.find? (fun prev => prev.id == item.id) with
            | some prev =>
              if prev.status ≠ item.status then
                some { id := item.id, title := item.title,
                       from_status := prev.status.val, to_status := item.status.val }
              else none
            | none => none) := by
  have hrev : ∀ i : String,
      previous.reverse.find? (fun prev => prev.id == i)
        = previous.find? (fun prev => prev.id == i) :=
    fun i => find?_reverse_of_nodup ProjectItem.id previous i hp
  refine ⟨rfl, ?_, compare_items_added_of_nodup current previous hc, ?_⟩
  · rw [compare_items_completed_eq]
    simp only [hrev]
  · rw [compare_status_changes_eq]
    simp only [hrev]

theorem claim_c4_compare_snapshots_witness :
    (([sampleItem "1" Status.DONE, sampleItem "2" Status.DONE].map ProjectItem.id).Nodup
      ∧ ([sampleItem "1" Status.IN_PROGRESS, sampleItem "2" Status.TODO].map
          ProjectItem.id).Nodup)
    ∧ (compare_snapshots [sampleItem "1" Status.DONE, sampleItem "2" Status.DONE]
          (some [sampleItem "1" Status.IN_PROGRESS, sampleItem "2" Status.TODO])).items_completed
        = ([sampleItem "1" Status.DONE, sampleItem "2" Status.DONE].filter (fun item =>
            match [sampleItem "1" Status.IN_PROGRESS, sampleItem "2" Status.TODO].find?
                (fun prev => prev.id == item.id) with
            | some prev =>
              decide (prev.status ≠ Status.DONE) && decide (item.status = Status.DONE)
            | none => false)).length :=
  ⟨⟨by decide, by decide⟩,
    (claim_c4_compare_snapshots
      [sampleItem "1" Status.DONE, sampleItem "2" Status.DONE]
      [sampleItem "1" Status.IN_PROGRESS, sampleItem "2" Status.TODO]
      (by decide) (by decide)).2.1⟩

/-- Claim C10: with duplicated ids in `current`, `items_completed` and
`status_changes` contribute once per list element (the id looked up in the
id-keyed `previous` dict, whose last occurrence wins), while `items_added`
counts each distinct new id exactly once because it iterates the id-keyed
lookup; on duplicate-free `current` the two conventions agree. -/
theorem claim_c10_compare_duplicates (current previous : List ProjectItem) :
    (compare_snapshots current (some previous)).items_completed
        = (current.filter (fun item =>
            match previous.reverse.find? (fun prev => prev.id == item.id) with
            | some prev =>
              decide (prev.status ≠ Status.DONE) && decide (item.status = Status.DONE)
            | none => false)).length
    ∧ (compare_snapshots current (some previous)).status_changes
        = current.filterMap (fun item =>
            match previous.reverse.find? (fun prev => prev.id == item.id) with
            | some prev =>
              if prev.status ≠ item.status then
                some { id := item.id, title := item.title,
                       from_status := prev.status.val, to_status := item.status.val }
              else none
            | none => none)
    ∧ (compare_snapshots current (some previous)).items_added
        = ((current.map ProjectItem.id).toFinset
            \ (previous.map ProjectItem.id).toFinset).card
    ∧ ((current.map ProjectItem.id).Nodup →
        (compare_snapshots current (some previous)).items_added
          = (current.filter
              (fun item => !(previous.map ProjectItem.id).contains item.id)).length) :=
  ⟨compare_items_completed_eq current previous,
    compare_status_changes_eq current previous,
    compare_items_added_card current previous,
    fun hc => compare_items_added_of_nodup current previous hc⟩

theorem claim_c10_compare_duplicates_witness :
    (([sampleItem "1" Status.DONE, sampleItem "2" Status.DONE].map ProjectItem.id).Nodup)
    ∧ (compare_snapshots [sampleItem "1" Status.DONE, sampleItem "1" Status.DONE]
          (some [sampleItem "1" Status.TODO])).items_completed
        = ([sampleItem "1" Status.DONE, sampleItem "1" Status.DONE].filter (fun item =>
            match [sampleItem "1" Status.TODO].reverse.find?
                (fun prev => prev.id == item.id) with
            | some prev =>
              decide (prev.status ≠ Status.DONE) && decide (item.status = Status.DONE)
            | none => false)).length
    ∧ (compare_snapshots [sampleItem "1" Status.DONE, sampleItem "2" Status.DONE]
          (some [sampleItem "1" Status.TODO])).items_added
        = ([sampleItem "1" Status.DONE, sampleItem "2" Status.DONE].filter
            (fun item =>
              !([sampleItem "1" Status.TODO].map ProjectItem.id).contains item.id)).length :=
  ⟨by decide,
    (claim_c10_compare_duplicates
      [sampleItem "1" Status.DONE, sampleItem "1" Status.DONE]
      [sampleItem "1" Status.TODO]).1,
    (claim_c10_compare_duplicates
      [sampleItem "1" Status.DONE, sampleItem "2" Status.DONE]
      [sampleItem "1" Status.TODO]).2.2.2 (by decide)⟩

theorem load_latest_snapshot_append_fresh (files : List SnapshotFile) (nf : SnapshotFile)
    (hmatch : matchesSnapshotGlob nf.name = true)
    (hgt : ∀ f ∈ files, f.name < nf.name) :
    load_latest_snapshot (some (files ++ [nf]))
      = (mapExcept deserialize_item nf.data.items).map some := by
  simp only [load_latest_snapshot]
  have hfil : (files ++ [nf]).filter (fun f => matchesSnapshotGlob f.name)
      = files.filter (fun f => matchesSnapshotGlob f.name) ++ [nf] := by
    rw [List.filter_append]
    congr 1
    simp [List.filter, hmatch]
  rw [hfil]
  cases hh : files.filter (fun f => matchesSnapshotGlob f.name) with
  | nil => rfl
  | cons f rest =>
    have hmem : ∀ g ∈ f :: rest, g.name < nf.name := by
      intro g hg
      apply hgt
      have hgf : g ∈ files.filter (fun f2 => matchesSnapshotGlob f2.name) := by
        rw [hh]
        exact hg
      exact List.mem_of_mem_filter hgf
    have hmax := foldl_maxByName_append_gt rest f nf hmem
    show (mapExcept deserialize_item (((rest ++ [nf]).foldl maxByName f).data.items)).map some
        = (mapExcept deserialize_item nf.data.items).map some
    rw [hmax]

/-- Claim C5: saving a snapshot and then loading the latest one from the same
directory returns a list of items equal field-for-field to the originals, in
the original order; the hypothesis states that the save's timestamp-derived
filename sorts after every file already present, as a later wall-clock time
does. -/
theorem claim_c5_snapshot_roundtrip (items : List ProjectItem) (dir : SnapshotDir)
    (now : DateTimeStamp)
    (hfresh : ∀ f ∈ dir.getD [], f.name < "snapshot-" ++ now.compact ++ ".json") :
    load_latest_snapshot (save_snapshot items now dir).1 = .ok (some items) := by
  have hneq : ∀ f ∈ dir.getD [], f.name ≠ "snapshot-" ++ now.compact ++ ".json" :=
    fun f hf => ne_of_lt (hfresh f hf)
  have hsave : (save_snapshot items now dir).1
      = some ((dir.getD [])
          ++ [{ name := "snapshot-" ++ now.compact ++ ".json",
                data := { timestamp := now.iso ++ "Z",
                          items := items.map serialize_item } }]) := by
    show some (writeFile (dir.getD []) ("snapshot-" ++ now.compact ++ ".json")
          { timestamp := now.iso ++ "Z", items := items.map serialize_item })
        = some ((dir.getD [])
            ++ [{ name := "snapshot-" ++ now.compact ++ ".json",
                  data := { timestamp := now.iso ++ "Z",
                            items := items.map serialize_item } }])
    rw [writeFile_of_fresh _ _ _ hneq]
  rw [hsave,
    load_latest_snapshot_append_fresh _ _ (matchesSnapshotGlob_append now.compact) hfresh,
    mapExcept_deserialize_serialize]
  rfl

theorem claim_c5_snapshot_roundtrip_witness :
    (∀ f ∈ (none : SnapshotDir).getD [],
        f.name < "snapshot-" ++ "20250101-000000" ++ ".json")
    ∧ load_latest_snapshot
        (save_snapshot [sampleItem "1" Status.TODO]
          ⟨"20250101-000000", "2025-01-01T00:00:00"⟩ none).1
      = .ok (some [sampleItem "1" Status.TODO]) :=
  ⟨by simp,
    claim_c5_snapshot_roundtrip [sampleItem "1" Status.TODO] none
      ⟨"20250101-000000", "2025-01-01T00:00:00"⟩ (by simp)⟩

/-- Claim C6: `load_latest_snapshot` returns the no-snapshot sentinel — not an
error — when the directory does not exist or holds no `snapshot-*.json` file;
otherwise it deserializes a file whose name is lexicographically greatest
among the matching files; and item deserialization errors exactly when the
stored status or priority string is not a legal enumeration value. -/
theorem claim_c6_load_latest (files : List SnapshotFile) (d : SnapItemJson) :
    load_latest_snapshot none = .ok none
    ∧ (files.filter (fun f => matchesSnapshotGlob f.name) = [] →
        load_latest_snapshot (some files) = .ok none)
    ∧ (∀ f rest, files.filter (fun f2 => matchesSnapshotGlob f2.name) = f :: rest →
        ∃ latest, latest ∈ files.filter (fun f2 => matchesSnapshotGlob f2.name)
          ∧ (∀ g ∈ files.filter (fun f2 => matchesSnapshotGlob f2.name), g.name ≤ latest.name)
          ∧ load_latest_snapshot (some files)
              = (mapExcept deserialize_item latest.data.items).map some)
    ∧ ((∃ e, deserialize_item d = .error e)
        ↔ (statusOfString d.status = none ∨ priorityOfString d.priority = none)) := by
  refine ⟨rfl, ?_, ?_, ?_⟩
  · intro hnil
    simp only [load_latest_snapshot]
    rw [hnil]
  · intro f rest hcons
    refine ⟨rest.foldl maxByName f, ?_, ?_, ?_⟩
    · rw [hcons]
      exact foldl_maxByName_mem rest f
    · rw [hcons]
      exact le_foldl_maxByName rest f
    · simp only [load_latest_snapshot]
      rw [hcons]
  · unfold deserialize_item
    cases hs : statusOfString d.status with
    | none => simp
    | some s =>
      cases hp2 : priorityOfString d.priority with
      | none => simp
      | some p => simp

theorem claim_c6_load_latest_witness :
    ((([] : List SnapshotFile).filter (fun f => matchesSnapshotGlob f.name) = [])
      ∧ load_latest_snapshot (some ([] : List SnapshotFile)) = .ok none)
    ∧ ((∃ e, deserialize_item
          { id := "1", title := "t", status := "Nope", priority := "P1",
            assignees := [], estimate_hours := none, labels := [], url := "",
            repository := "", issue_number := none } = .error e)
        ↔ (statusOfString "Nope" = none ∨ priorityOfString "P1" = none)) :=
  ⟨⟨rfl,
    (claim_c6_load_latest []
      { id := "1", title := "t", status := "Nope", priority := "P1",
        assignees := [], estimate_hours := none, labels := [], url := "",
        repository := "", issue_number := none }).2.1 rfl⟩,
    (claim_c6_load_latest []
      { id := "1", title := "t", status := "Nope", priority := "P1",
        assignees := [], estimate_hours := none, labels := [], url := "",
        repository := "", issue_number := none }).2.2.2⟩

/-- Claim C8: the v1 and v2 pipelines agree on their shared behaviour: for
every sequence of raw records, parsing with `parse_items_v2` and aggregating
with `calculate_metrics_v2` yields — after projecting the grouped items to
their v1 fields — exactly the aggregate that `parse_items` followed by
`calculate_metrics` yields: every scalar field equal, and groupings with
identical keys holding corresponding items equal on all v1 fields. -/
theorem claim_c8_pipelines_equivalent (raws : List RawItemV2) :
    (parse_items_v2 raws).map
        (fun items => mapMetrics ProjectItemV2.toProjectItem (calculate_metrics_v2 items))
      = (parse_items (raws.map RawItemV2.toRawItem)).map calculate_metrics := by
  rw [← parse_items_v2_toProjectItem]
  cases h : parse_items_v2 raws with
  | error e => rfl
  | ok l =>
    show Except.ok (mapMetrics ProjectItemV2.toProjectItem (calculate_metrics_v2 l))
        = Except.ok (calculate_metrics (l.map ProjectItemV2.toProjectItem))
    rw [calculate_metrics_v2_toProjectItem]

end TpmReports
